import Mathlib

/-!
Verification model of the enc28j60rs driver (src/rust_enc28j60.rs with
src/enc28j60_hw.rs).  The SPI bus is modelled as an oracle `Env` giving, for
the i-th SPI transaction the driver issues, either `none` (transport error,
kernel `Result` error) or `some bytes` (the bytes clocked in).  Driver
computations are state-passing functions that record the exact SPI requests
(and the netdev calls) they issue as a trace of `Event`s.
-/

namespace Enc28j60

/-- Response of the SPI transport to one transaction: `none` is a bus error,
`some bs` are the received bytes (only used by read transactions). -/
abbrev Env := Nat → Option (List Nat)

/-- One SPI transaction as requested by the driver: `spi::Device::write` or
`spi::Device::write_then_read` (with the length of the rx buffer). -/
inductive SpiOp where
  | write (tx : List Nat)
  | writeThenRead (tx : List Nat) (rxLen : Nat)
deriving DecidableEq, Repr

/-- Observable actions of the driver: SPI transactions and netdev calls. -/
inductive Event where
  | spi (op : SpiOp)
  | takeTxSkb
  | wakeQueue
  | carrierOn
  | carrierOff
  | allocSkb (len : Nat)
  | netifRx (len : Nat)
deriving DecidableEq, Repr

/-- Kernel error codes the driver returns (EIO stands for any SPI transport
error). -/
inductive Err where
  | eio
  | enodev
  | einval
deriving DecidableEq, Repr

/-- The mutable `Enc28j60Driver` state the modelled routines touch:
the cached register bank, `next_packet_ptr` and `hw_enabled`. -/
structure DrvSt where
  bank : Nat
  nextPacketPtr : Nat
  hwEnabled : Bool
deriving DecidableEq, Repr

instance exceptDecEq [DecidableEq α] : DecidableEq (Except Err α)
  | .error a, .error b =>
    if h : a = b then .isTrue (by rw [h])
    else .isFalse (by intro hh; cases hh; exact h rfl)
  | .error _, .ok _ => .isFalse (by intro h; cases h)
  | .ok _, .error _ => .isFalse (by intro h; cases h)
  | .ok a, .ok b =>
    if h : a = b then .isTrue (by rw [h])
    else .isFalse (by intro hh; cases hh; exact h rfl)

/-- Result of running a driver computation: outcome, final driver state,
number of SPI transactions consumed so far, and the emitted event trace. -/
structure Res (α : Type) where
  out : Except Err α
  st : DrvSt
  idx : Nat
  tr : List Event
deriving DecidableEq, Repr

/-- Driver computations: given the bus oracle, the driver state and the
index of the next SPI transaction, produce a `Res`. -/
def M (α : Type) : Type := Env → DrvSt → Nat → Res α

def M.pure (a : α) : M α := fun _ s i => ⟨.ok a, s, i, []⟩

def M.bind (x : M α) (f : α → M β) : M β := fun env s i =>
  let r := x env s i
  match r.out with
  | .error e => ⟨.error e, r.st, r.idx, r.tr⟩
  | .ok a =>
    let r2 := f a env r.st r.idx
    ⟨r2.out, r2.st, r2.idx, r.tr ++ r2.tr⟩

instance instMonadM : Monad M where
  pure := M.pure
  bind := M.bind

/-- `spi::Device::write`: one SPI write transaction. -/
def spiWrite (tx : List Nat) : M Unit := fun env s i =>
  match env i with
  | none => ⟨.error .eio, s, i + 1, [.spi (.write tx)]⟩
  | some _ => ⟨.ok (), s, i + 1, [.spi (.write tx)]⟩

/-- `spi::Device::write_then_read`: one SPI write-then-read transaction;
returns the bytes received into the rx buffer. -/
def spiWtr (tx : List Nat) (rxLen : Nat) : M (List Nat) := fun env s i =>
  match env i with
  | none => ⟨.error .eio, s, i + 1, [.spi (.writeThenRead tx rxLen)]⟩
  | some bs => ⟨.ok bs, s, i + 1, [.spi (.writeThenRead tx rxLen)]⟩

/-- Record a netdev-facing action. -/
def emit (ev : Event) : M Unit := fun _ s i => ⟨.ok (), s, i, [ev]⟩

def getSt : M DrvSt := fun _ s i => ⟨.ok s, s, i, []⟩

def setCachedBank (b : Nat) : M Unit := fun _ s i =>
  ⟨.ok (), { s with bank := b }, i, []⟩

def setNextPacketPtr (p : Nat) : M Unit := fun _ s i =>
  ⟨.ok (), { s with nextPacketPtr := p }, i, []⟩

def setHwEnabled (b : Bool) : M Unit := fun _ s i =>
  ⟨.ok (), { s with hwEnabled := b }, i, []⟩

def throwErr (e : Err) : M α := fun _ s i => ⟨.error e, s, i, []⟩

/-- `enc28j60_hw::Bank`. -/
inductive Bank where
  | bank0
  | bank1
  | bank2
  | bank3
deriving DecidableEq, Repr

/-- `bank as u8` (the discriminants 0..3). -/
def Bank.toNat : Bank → Nat
  | .bank0 => 0
  | .bank1 => 1
  | .bank2 => 2
  | .bank3 => 3

/-- `enc28j60_hw::Command` (the SPI opcodes, pre-shifted as in the source). -/
inductive Command where
  | rcr
  | wcr
  | bfs
  | bfc
  | rbm
  | wbm
  | src
deriving DecidableEq, Repr

/-- `command as u8`. -/
def Command.code : Command → Nat
  | .rcr => 0x00
  | .wcr => 0x40
  | .bfs => 0x80
  | .bfc => 0xa0
  | .rbm => 0x3a
  | .wbm => 0x7a
  | .src => 0xff

/-- `enc28j60_hw::ControlRegisterU8`: bank (None = common), 5-bit address,
and the ETH read-framing flag. -/
structure CReg8 where
  bank : Option Bank
  addr : Nat
  eth : Bool
deriving DecidableEq, Repr

/-- `enc28j60_hw::ControlRegisterU16`: a low/high pair of 8-bit registers. -/
structure CReg16 where
  low : CReg8
  high : CReg8
deriving DecidableEq, Repr

/-- `enc28j60_hw::PhyRegister`. -/
structure PhyReg where
  addr : Nat
deriving DecidableEq, Repr

/-- `Register::read` for `ControlRegisterU8`: send `[command | addr]`, then
read 1 byte for an ETH register, 2 bytes (dummy + data) otherwise, keeping
the last byte received (the SPI bus delivers bytes, hence `% 256`). -/
def CReg8.readOp (r : CReg8) (cmd : Command) : M Nat := do
  let rxLen := if r.eth then 1 else 2
  let bs ← spiWtr [cmd.code ||| r.addr] rxLen
  pure ((bs.getD (rxLen - 1) 0) % 256)

/-- `Register::write` for `ControlRegisterU8`: send `[command | addr, data]`. -/
def CReg8.writeOp (r : CReg8) (cmd : Command) (data : Nat) : M Unit :=
  spiWrite [cmd.code ||| r.addr, data]

/-- `Register::read` for `ControlRegisterU16`: low byte first, then high,
composed as `(high << 8) | low`. -/
def CReg16.readOp (r : CReg16) (cmd : Command) : M Nat := do
  let low ← r.low.readOp cmd
  let high ← r.high.readOp cmd
  pure ((high <<< 8) ||| low)

/-- `Register::write` for `ControlRegisterU16`: write `data as u8` to the low
register, then `(data >> 8) as u8` to the high one. -/
def CReg16.writeOp (r : CReg16) (cmd : Command) (data : Nat) : M Unit := do
  r.low.writeOp cmd (data % 256)
  r.high.writeOp cmd ((data >>> 8) % 256)

-- Register catalog (enc28j60_hw.rs `register` module), the registers the
-- modelled routines touch.
def EIE : CReg8 := ⟨none, 0x1b, true⟩
def EIR : CReg8 := ⟨none, 0x1c, true⟩
def ECON2 : CReg8 := ⟨none, 0x1e, true⟩
def ECON1 : CReg8 := ⟨none, 0x1f, true⟩

def ERDPTL : CReg8 := ⟨some .bank0, 0x00, true⟩
def ERDPTH : CReg8 := ⟨some .bank0, 0x01, true⟩
def ERDPT : CReg16 := ⟨ERDPTL, ERDPTH⟩
def EWRPTL : CReg8 := ⟨some .bank0, 0x02, true⟩
def EWRPTH : CReg8 := ⟨some .bank0, 0x03, true⟩
def EWRPT : CReg16 := ⟨EWRPTL, EWRPTH⟩
def ETXSTL : CReg8 := ⟨some .bank0, 0x04, true⟩
def ETXSTH : CReg8 := ⟨some .bank0, 0x05, true⟩
def ETXST : CReg16 := ⟨ETXSTL, ETXSTH⟩
def ETXNDL : CReg8 := ⟨some .bank0, 0x06, true⟩
def ETXNDH : CReg8 := ⟨some .bank0, 0x07, true⟩
def ETXND : CReg16 := ⟨ETXNDL, ETXNDH⟩
def ERXSTL : CReg8 := ⟨some .bank0, 0x08, true⟩
def ERXSTH : CReg8 := ⟨some .bank0, 0x09, true⟩
def ERXST : CReg16 := ⟨ERXSTL, ERXSTH⟩
def ERXNDL : CReg8 := ⟨some .bank0, 0x0a, true⟩
def ERXNDH : CReg8 := ⟨some .bank0, 0x0b, true⟩
def ERXND : CReg16 := ⟨ERXNDL, ERXNDH⟩
def ERXRDPTL : CReg8 := ⟨some .bank0, 0x0c, true⟩
def ERXRDPTH : CReg8 := ⟨some .bank0, 0x0d, true⟩
def ERXRDPT : CReg16 := ⟨ERXRDPTL, ERXRDPTH⟩
def ERXWRPTL : CReg8 := ⟨some .bank0, 0x0e, true⟩
def ERXWRPTH : CReg8 := ⟨some .bank0, 0x0f, true⟩
def ERXWRPT : CReg16 := ⟨ERXWRPTL, ERXWRPTH⟩

def ERXFCON : CReg8 := ⟨some .bank1, 0x18, true⟩
def EPKTCNT : CReg8 := ⟨some .bank1, 0x19, true⟩

def MACON1 : CReg8 := ⟨some .bank2, 0x00, false⟩
def MACON3 : CReg8 := ⟨some .bank2, 0x02, false⟩
def MABBIPG : CReg8 := ⟨some .bank2, 0x04, false⟩
def MAIPGL : CReg8 := ⟨some .bank2, 0x06, false⟩
def MAIPGH : CReg8 := ⟨some .bank2, 0x07, false⟩
def MAIPG : CReg16 := ⟨MAIPGL, MAIPGH⟩
def MAMXFLL : CReg8 := ⟨some .bank2, 0x0a, false⟩
def MAMXFLH : CReg8 := ⟨some .bank2, 0x0b, false⟩
def MAMXFL : CReg16 := ⟨MAMXFLL, MAMXFLH⟩
def MICMD : CReg8 := ⟨some .bank2, 0x12, false⟩
def MIREGADR : CReg8 := ⟨some .bank2, 0x14, false⟩
def MIWRL : CReg8 := ⟨some .bank2, 0x16, false⟩
def MIWRH : CReg8 := ⟨some .bank2, 0x17, false⟩
def MIWR : CReg16 := ⟨MIWRL, MIWRH⟩
def MIRDL : CReg8 := ⟨some .bank2, 0x18, false⟩
def MIRDH : CReg8 := ⟨some .bank2, 0x19, false⟩
def MIRD : CReg16 := ⟨MIRDL, MIRDH⟩

def MISTAT : CReg8 := ⟨some .bank3, 0x0a, false⟩
def EREVID : CReg8 := ⟨some .bank3, 0x12, true⟩

def PHCON1 : PhyReg := ⟨0x00⟩
def PHCON2 : PhyReg := ⟨0x10⟩
def PHSTAT2 : PhyReg := ⟨0x11⟩
def PHIE : PhyReg := ⟨0x12⟩
def PHIR : PhyReg := ⟨0x13⟩
def PHLCON : PhyReg := ⟨0x14⟩

-- Field masks (enc28j60_hw.rs bit-flag modules).
namespace eie
def INTIE : Nat := 0x80
end eie

namespace eir
def PKTIF : Nat := 0x40
def DMAIF : Nat := 0x20
def LINKIF : Nat := 0x10
def TXIF : Nat := 0x08
def TXERIF : Nat := 0x02
def RXERIF : Nat := 0x01
end eir

namespace econ1
def TXRTS : Nat := 0x08
def RXEN : Nat := 0x04
def BSEL1 : Nat := 0x02
def BSEL0 : Nat := 0x01
end econ1

namespace econ2
def AUTOINC : Nat := 0x80
def PKTDEC : Nat := 0x40
end econ2

namespace erxfcon
def UCEN : Nat := 0x80
def CRCEN : Nat := 0x20
def BCEN : Nat := 0x01
end erxfcon

namespace macon1
def TXPAUS : Nat := 0x08
def RXPAUS : Nat := 0x04
def MARXEN : Nat := 0x01
end macon1

namespace macon3
def PADCFG0 : Nat := 0x20
def TXCRCEN : Nat := 0x10
def FRMLNEN : Nat := 0x02
def FULDPX : Nat := 0x01
end macon3

namespace micmd
def MIIRD : Nat := 0x01
end micmd

namespace mistat
def BUSY : Nat := 0x01
end mistat

namespace phstat2
def LSTAT : Nat := 1 <<< 10
def DPXSTAT : Nat := 1 <<< 9
end phstat2

namespace phie
def PLNKIE : Nat := 1 <<< 4
def PGEIE : Nat := 1 <<< 1
end phie

namespace phcon1
def PDPXMD : Nat := 0x0100
end phcon1

-- RX status bit masks (enc28j60_hw.rs `RsvStatus`).
namespace rsvStatus
def CrcError : Nat := 1 <<< 4
def LengthCheckError : Nat := 1 <<< 5
def LengthOutOfRange : Nat := 1 <<< 6
def RxOk : Nat := 1 <<< 7
end rsvStatus

/-- `core::ops::RangeInclusive<u16>` as used for the FIFO partitions. -/
structure BufferRange where
  lo : Nat
  hi : Nat
deriving DecidableEq, Repr

def BufferRange.containsV (r : BufferRange) (v : Nat) : Prop :=
  r.lo ≤ v ∧ v ≤ r.hi

instance (r : BufferRange) (v : Nat) : Decidable (r.containsV v) := by
  unfold BufferRange.containsV; infer_instance

def RXFIFO_INIT : BufferRange := ⟨0x0000, 0x19ff⟩
def TXFIFO_INIT : BufferRange := ⟨0x1a00, 0x1fff⟩

def ETH_MAX_FRAME_LEN : Nat := 1518
def ENC28J60_LAMPS_MODE : Nat := 0x3476

/-- `RxStatusVector` (6 bytes, little-endian fields). -/
structure RxStatusVector where
  nextPtr : Nat
  byteCount : Nat
  status : Nat
deriving DecidableEq, Repr

/-- `RxStatusVector::new` decoding from the 6 received bytes. -/
def RxStatusVector.ofBytes (d : List Nat) : RxStatusVector :=
  { nextPtr := (d.getD 1 0 <<< 8) ||| d.getD 0 0
    byteCount := (d.getD 3 0 <<< 8) ||| d.getD 2 0
    status := (d.getD 5 0 <<< 8) ||| d.getD 4 0 }

/-- `RxStatusVector::status(mask)`: test a status bit. -/
def RxStatusVector.statusBit (r : RxStatusVector) (mask : Nat) : Bool :=
  r.status &&& mask != 0

/-- `RxStatusVector::size()` = 6. -/
def rsvSize : Nat := 6

/-- `Enc28j60Driver::switch_bank`, generalized over the register's bank
descriptor: if the register is banked and its bank differs from the cache,
emit BFC then BFS on ECON1 and update the cache; otherwise do nothing. -/
def switchBank (b : Option Bank) : M Unit :=
  match b with
  | some bk => do
    let s ← getSt
    if s.bank ≠ bk.toNat then do
      ECON1.writeOp .bfc (econ1.BSEL1 ||| econ1.BSEL0)
      ECON1.writeOp .bfs bk.toNat
      setCachedBank bk.toNat
    else pure ()
  | none => pure ()

/-- `Enc28j60Driver::read` for an 8-bit register. -/
def readReg8 (r : CReg8) (cmd : Command) : M Nat := do
  switchBank r.bank
  r.readOp cmd

/-- `Enc28j60Driver::write` for an 8-bit register. -/
def writeReg8 (r : CReg8) (cmd : Command) (data : Nat) : M Unit := do
  switchBank r.bank
  r.writeOp cmd data

/-- `Enc28j60Driver::read` for a 16-bit register (its bank is the low
register's bank). -/
def readReg16 (r : CReg16) (cmd : Command) : M Nat := do
  switchBank r.low.bank
  r.readOp cmd

/-- `Enc28j60Driver::write` for a 16-bit register. -/
def writeReg16 (r : CReg16) (cmd : Command) (data : Nat) : M Unit := do
  switchBank r.low.bank
  r.writeOp cmd data

/-- `Enc28j60Driver::read_buffer`: set ERDPT (WCR), then one RBM
transaction filling a buffer of `len` bytes. -/
def readBuffer (addr : Nat) (len : Nat) : M (List Nat) := do
  writeReg16 ERDPT .wcr addr
  spiWtr [Command.rbm.code] len

/-- `Enc28j60Driver::write_buffer`: a single SPI write of WBM followed by
the payload. -/
def writeBuffer (txBuf : List Nat) : M Unit :=
  spiWrite (Command.wbm.code :: txBuf)

/-- `Enc28j60Driver::wait_for_ready` on an 8-bit register: poll until
`(value & mask) == val`.  The source polls indefinitely with 1 ms sleeps;
the model bounds the unrolling with `fuel` (exhaustion is reported as an
error, a model artifact never hit by the environments used below). -/
def waitForReady8 (r : CReg8) (mask val : Nat) : Nat → M Unit
  | 0 => throwErr .eio
  | fuel + 1 => do
    let v ← readReg8 r .rcr
    if v &&& mask ≠ val then waitForReady8 r mask val fuel else pure ()

/-- `Enc28j60Driver::read_phy`. -/
def readPhy (reg : PhyReg) (fuel : Nat) : M Nat := do
  writeReg8 MIREGADR .wcr reg.addr
  writeReg8 MICMD .wcr micmd.MIIRD
  waitForReady8 MISTAT mistat.BUSY 0 fuel
  writeReg8 MICMD .wcr 0
  readReg16 MIRD .rcr

/-- `Enc28j60Driver::write_phy`. -/
def writePhy (reg : PhyReg) (data : Nat) (fuel : Nat) : M Unit := do
  writeReg8 MIREGADR .wcr reg.addr
  writeReg16 MIWR .wcr data
  waitForReady8 MISTAT mistat.BUSY 0 fuel

/-- `Enc28j60Driver::check_link_status` (log output elided; the netdev
carrier calls are recorded). -/
def checkLinkStatus (fuel : Nat) : M Unit := do
  let v ← readPhy PHSTAT2 fuel
  if v &&& phstat2.LSTAT ≠ 0 then emit .carrierOn else emit .carrierOff

/-- `Enc28j60Driver::erxrdpt_workaround`: `checked_sub(1)`, keep the result
only when the range contains it, else `*range.end()`. -/
def erxrdptWorkaround (nextPacketPtr : Nat) (range : BufferRange) : Nat :=
  if nextPacketPtr = 0 then range.hi
  else if range.containsV (nextPacketPtr - 1) then nextPacketPtr - 1
  else range.hi

/-- `Enc28j60Driver::init_rxfifo`. -/
def initRxfifo (range : BufferRange) : M Unit := do
  if range.hi < range.lo ∨ ¬ RXFIFO_INIT.containsV range.lo
      ∨ ¬ RXFIFO_INIT.containsV range.hi then
    throwErr .einval
  else do
    setNextPacketPtr range.lo
    writeReg16 ERXST .wcr range.lo
    writeReg16 ERXRDPT .wcr (erxrdptWorkaround range.lo range)
    writeReg16 ERXND .wcr range.hi

/-- `Enc28j60Driver::init_txfifo`. -/
def initTxfifo (range : BufferRange) : M Unit := do
  if range.hi < range.lo ∨ ¬ TXFIFO_INIT.containsV range.lo
      ∨ ¬ TXFIFO_INIT.containsV range.hi then
    throwErr .einval
  else do
    writeReg16 ETXST .wcr range.lo
    writeReg16 ETXND .wcr range.hi

/-- The part of `Enc28j60Driver::init_hardware` that follows the ECON2
auto-increment write (rust_enc28j60.rs lines 185-215). -/
def initHardwareRest2 (fuel : Nat) : M Unit := do
  initRxfifo RXFIFO_INIT
  initTxfifo TXFIFO_INIT
  writeReg8 ERXFCON .wcr (erxfcon.UCEN ||| erxfcon.CRCEN ||| erxfcon.BCEN)
  writeReg8 MACON1 .wcr (macon1.MARXEN ||| macon1.RXPAUS ||| macon1.TXPAUS)
  writeReg8 MACON3 .wcr
    (macon3.FULDPX ||| macon3.FRMLNEN ||| macon3.TXCRCEN ||| macon3.PADCFG0)
  writeReg16 MAIPG .wcr 0x12
  writeReg8 MABBIPG .wcr 0x15
  writeReg16 MAMXFL .wcr ETH_MAX_FRAME_LEN
  writePhy PHLCON ENC28J60_LAMPS_MODE fuel
  writePhy PHCON1 phcon1.PDPXMD fuel
  writePhy PHCON2 0x0 fuel

/-- The part of `Enc28j60Driver::init_hardware` that runs after the
EREVID identity check passed (rust_enc28j60.rs lines 182-215). -/
def initHardwareRest (fuel : Nat) : M Unit := do
  writeReg8 ECON2 .wcr econ2.AUTOINC
  initHardwareRest2 fuel

/-- `Enc28j60Driver::init_hardware`. -/
def initHardware (fuel : Nat) : M Unit := do
  spiWrite [Command.src.code]
  writeReg8 ECON1 .wcr 0x0
  setCachedBank 0
  setHwEnabled false
  let revision ← readReg8 EREVID .rcr
  if revision = 0 ∨ revision = 0xff then
    throwErr .enodev
  else
    initHardwareRest fuel

/-- `Enc28j60Driver::next_rx_start` with u16 wrap-around semantics. -/
def nextRxStart (ptr : Nat) : Nat :=
  let e := (ptr + rsvSize) % 65536
  if RXFIFO_INIT.containsV e then e
  else (e + 65536 - (RXFIFO_INIT.hi - RXFIFO_INIT.lo + 1)) % 65536

/-- `Enc28j60Driver::handle_rx_packet` (the three pointer reads feed a
log line in the source; they are SPI transactions and are kept). -/
def handleRxPacket : M Unit := do
  let s0 ← getSt
  let rsvBytes ← readBuffer s0.nextPacketPtr rsvSize
  let rsv := RxStatusVector.ofBytes rsvBytes
  let _a1 ← readReg16 ERDPT .rcr
  let _a2 ← readReg16 ERXRDPT .rcr
  let _a3 ← readReg16 ERXWRPT .rcr
  if ¬ rsv.statusBit rsvStatus.RxOk ∨ rsv.statusBit rsvStatus.CrcError
      ∨ rsv.statusBit rsvStatus.LengthCheckError then
    pure ()
  else do
    emit (.allocSkb rsv.byteCount)
    let s1 ← getSt
    let readPtr := nextRxStart s1.nextPacketPtr
    let _room ← readBuffer readPtr rsv.byteCount
    emit (.netifRx rsv.byteCount)
  setNextPacketPtr rsv.nextPtr
  writeReg16 ERXRDPT .rcr (erxrdptWorkaround rsv.nextPtr RXFIFO_INIT)

/-- Body of the `for _ in 0..packet_count` loop in `handle_rx`. -/
def handleRxLoop : Nat → M Unit
  | 0 => pure ()
  | n + 1 => do
    handleRxPacket
    writeReg8 ECON2 .bfs econ2.PKTDEC
    let _cnt ← readReg8 EPKTCNT .rcr
    handleRxLoop n

/-- `Enc28j60Driver::handle_rx`. -/
def handleRx : M Bool := do
  let packetCount ← readReg8 EPKTCNT .rcr
  if packetCount = 0 then pure false
  else do
    handleRxLoop packetCount
    pure true

/-- The TXIF (and not TXERIF) branch of the IRQ work handler.  Note that
`tx_skb.lock().as_mut().take()` in the source empties a temporary
`Option<&mut _>`, so no driver state changes; the model records the call. -/
def txifActions : M Unit := do
  emit .takeTxSkb
  writeReg8 ECON1 .bfc econ1.TXRTS
  emit .wakeQueue
  writeReg8 EIR .bfc eir.TXIF

/-- The TXERIF branch of the IRQ work handler (rust_enc28j60.rs lines
569-576). -/
def txerifActions : M Unit := do
  emit .takeTxSkb
  writeReg8 ECON1 .bfc econ1.TXRTS
  emit .wakeQueue
  writeReg8 EIR .bfc (eir.TXERIF ||| eir.TXIF)

/-- One pass of the IRQ drain loop body; returns the `iteration` flag. -/
def irqLoopBody (fuel : Nat) : M Bool := do
  let eirv ← readReg8 EIR .rcr
  let pa ← if eirv &&& eir.DMAIF ≠ 0 then do
      writeReg8 EIR .bfc eir.DMAIF
      pure true
    else pure false
  let pb ← if eirv &&& eir.LINKIF ≠ 0 then do
      checkLinkStatus fuel
      let _phir ← readPhy PHIR fuel
      pure true
    else pure false
  let pc ← if eirv &&& eir.TXIF ≠ 0 ∧ eirv &&& eir.TXERIF = 0 then do
      txifActions
      pure true
    else pure false
  let pd ← if eirv &&& eir.TXERIF ≠ 0 then do
      txerifActions
      pure true
    else pure false
  let pe ← if eirv &&& eir.RXERIF ≠ 0 then do
      writeReg8 EIR .bfc eir.RXERIF
      pure true
    else pure false
  let pf ← handleRx
  pure (pa ∨ pb ∨ pc ∨ pd ∨ pe ∨ pf)

/-- The do-while drain loop: run the body, repeat while it reports
progress.  `fuelLoop` bounds the number of passes (a model artifact). -/
def irqDrain (fuelPhy : Nat) : Nat → M Unit
  | 0 => throwErr .eio
  | n + 1 => do
    let iteration ← irqLoopBody fuelPhy
    if iteration then irqDrain fuelPhy n else pure ()

/-- `IrqWorkHandler` closure: clear EIE.INTIE, drain, set EIE.INTIE.
The outer `let _ = ...()` in the source discards the `Result`, so on an
error the closure simply stops; `Res.out` records that outcome. -/
def irqWorkHandler (fuelPhy fuelLoop : Nat) : M Unit := do
  writeReg8 EIE .bfc eie.INTIE
  irqDrain fuelPhy fuelLoop
  writeReg8 EIE .bfs eie.INTIE

/-- `TxWorkHandler` closure, given the parked skb payload bytes.  Note the
`Command::Rcr` arguments on the EWRPT and ETXND writes, as in the source. -/
def txWorkHandler (skbData : List Nat) : M Unit := do
  writeReg16 EWRPT .rcr TXFIFO_INIT.lo
  writeReg16 ETXND .rcr ((TXFIFO_INIT.lo + skbData.length) % 65536)
  spiWrite [Command.wbm.code, 0]
  writeBuffer skbData
  writeReg8 ECON1 .bfs econ1.TXRTS

/-- C5: for every u16 pointer p, `erxrdpt_workaround(p, RXFIFO)` is `p - 1`
when `p - 1` lies in `[0x0000, 0x19FF]` (so `1 ≤ p ≤ 0x1A00`), and `0x19FF`
otherwise — including `p = 0`, where the `checked_sub` avoids the u16
underflow; consequently for `p` in the RX FIFO range the result stays in
the range and differs from `p`. -/
theorem claim_C5 (p : Nat) (hp : p < 65536) :
    (1 ≤ p ∧ p - 1 ≤ 0x19ff → erxrdptWorkaround p RXFIFO_INIT = p - 1)
    ∧ ((p = 0 ∨ 0x19ff < p - 1) → erxrdptWorkaround p RXFIFO_INIT = 0x19ff)
    ∧ (p ≤ 0x19ff → erxrdptWorkaround p RXFIFO_INIT ≤ 0x19ff
        ∧ erxrdptWorkaround p RXFIFO_INIT ≠ p) := by
  simp only [erxrdptWorkaround, RXFIFO_INIT, BufferRange.containsV]
  split
  · omega
  · split <;> omega

theorem claim_C5_witness :
    erxrdptWorkaround 0 RXFIFO_INIT = 0x19ff
    ∧ erxrdptWorkaround 0x0100 RXFIFO_INIT = 0x00ff := by
  refine ⟨(claim_C5 0 (by decide)).2.1 (Or.inl rfl), ?_⟩
  exact (claim_C5 0x0100 (by decide)).1 (by decide)

/-- C6: for every p in RXFIFO = [0x0000, 0x19FF], `next_rx_start(p)` is
`p + 6` when `p + 6` is still in RXFIFO and `p + 6 - 0x1A00` otherwise;
under this precondition the u16 addition `p + 6` cannot overflow, and the
result always lies in RXFIFO. -/
theorem claim_C6 (p : Nat) (hp : p ≤ 0x19ff) :
    p + 6 < 65536
    ∧ (p + 6 ≤ 0x19ff → nextRxStart p = p + 6)
    ∧ (0x19ff < p + 6 → nextRxStart p = p + 6 - 0x1a00)
    ∧ nextRxStart p ≤ 0x19ff := by
  simp only [nextRxStart, rsvSize, RXFIFO_INIT, BufferRange.containsV]
  split <;> omega

theorem claim_C6_witness :
    0x19fa + 6 < 65536 ∧ nextRxStart 0x19fa = 0 ∧ nextRxStart 0x19f9 = 0x19ff := by
  have h1 := claim_C6 0x19fa (by decide)
  have h2 := claim_C6 0x19f9 (by decide)
  exact ⟨h1.1, by rw [h1.2.2.1 (by decide)], by rw [h2.2.1 (by decide)]⟩

/-- A fault-free SPI oracle with prescribed response bytes. -/
def okEnv (f : Nat → List Nat) : Env := fun j => some (f j)

/-- SPI oracle: every transaction succeeds, every read returns zeroes. -/
def envOk : Env := fun _ => some []

/-- SPI oracle for a TXERIF interrupt: the first EIR read (transaction 1)
returns TXERIF; everything else succeeds returning zeroes. -/
def envTxErr : Env := fun i => if i = 1 then some [eir.TXERIF] else some []

/-- SPI oracle injecting a bus error on the first EIR read. -/
def envEirFail : Env := fun i => if i = 1 then none else some []

/-- The six RSV bytes of an oversized but RxOk frame:
next_ptr = 0x0100, byte_count = 2000, status = RxOk only. -/
def rsvOversize : List Nat := [0x00, 0x01, 0xd0, 0x07, 0x80, 0x00]

/-- SPI oracle for one received packet whose RSV is `rsvOversize`
(transaction 4 is the 6-byte RBM read of the status vector when
`handle_rx_packet` starts with cached bank 1). -/
def envRxOversize : Env := fun i => if i = 4 then some rsvOversize else some []

/-- C1 fails on the code: with a TXERIF interrupt pending, the IRQ work
handler completes, but its SPI trace contains no 7-byte status-vector
read, no ECON1 BFS carrying TXRTS (so no set-then-clear pulse), and no
write addressed to ETXST or ETXND (no TX FIFO reinitialization) — under
either the WCR encoding (0x44..0x47) or the RCR bytes the driver would
emit (0x04..0x07). -/
theorem claim_C1_counterexample :
    (irqWorkHandler 1 2 envTxErr ⟨0, 0, true⟩ 0).out = .ok ()
    ∧ envTxErr 1 = some [eir.TXERIF]
    ∧ Event.spi (.writeThenRead [0x1c] 1) ∈ (irqWorkHandler 1 2 envTxErr ⟨0, 0, true⟩ 0).tr
    ∧ (irqWorkHandler 1 2 envTxErr ⟨0, 0, true⟩ 0).tr.all (fun ev =>
        match ev with
        | .spi (.writeThenRead tx len) => !(tx == [Command.rbm.code] && len == 7)
        | .spi (.write (c :: d :: _)) =>
          !((c == 0x9f && d &&& econ1.TXRTS != 0)
            || c == 0x44 || c == 0x45 || c == 0x46 || c == 0x47
            || c == 0x04 || c == 0x05 || c == 0x06 || c == 0x07)
        | _ => true) = true := by
  decide

/-- C1 amended: whenever the drain loop observes EIR.TXERIF set, the
handler takes the parked skb reference, clears ECON1.TXRTS with a single
BFC, wakes the netdev TX queue, and clears EIR.TXERIF and EIR.TXIF with
one BFC of mask TXERIF|TXIF; it reads no TX status vector, never sets
TXRTS, and leaves the TX FIFO pointers untouched.  First conjunct: the
exact behavior of the TXERIF branch under any fault-free oracle; second:
a full handler run on a TXERIF interrupt showing the branch in place. -/
theorem claim_C1 :
    (∀ (f : Nat → List Nat) (s : DrvSt) (i : Nat),
      txerifActions (okEnv f) s i =
        ⟨.ok (), s, i + 2,
          [.takeTxSkb, .spi (.write [0xbf, econ1.TXRTS]), .wakeQueue,
           .spi (.write [0xbc, eir.TXERIF ||| eir.TXIF])]⟩)
    ∧ (irqWorkHandler 1 2 envTxErr ⟨0, 0, true⟩ 0).tr =
        [.spi (.write [0xbb, eie.INTIE]), .spi (.writeThenRead [0x1c] 1),
         .takeTxSkb, .spi (.write [0xbf, econ1.TXRTS]), .wakeQueue,
         .spi (.write [0xbc, eir.TXERIF ||| eir.TXIF]),
         .spi (.write [0xbf, econ1.BSEL1 ||| econ1.BSEL0]), .spi (.write [0x9f, 1]),
         .spi (.writeThenRead [0x19] 1), .spi (.writeThenRead [0x1c] 1),
         .spi (.writeThenRead [0x19] 1), .spi (.write [0x9b, eie.INTIE])] := by
  exact ⟨fun f s i => rfl, by decide⟩

/-- C2 fails on the code: a frame whose RSV reports RxOk with
byte_count = 2000 > ETH_MAX_FRAME_LEN = 1518 is nevertheless handed to the
network stack (the drop condition in `handle_rx_packet` tests CrcError and
LengthCheckError, not the byte count). -/
theorem claim_C2_counterexample :
    RxStatusVector.statusBit (.ofBytes rsvOversize) rsvStatus.RxOk = true
    ∧ RxStatusVector.byteCount (.ofBytes rsvOversize) = 2000
    ∧ ETH_MAX_FRAME_LEN < RxStatusVector.byteCount (.ofBytes rsvOversize)
    ∧ Event.netifRx 2000 ∈ (handleRxPacket envRxOversize ⟨1, 0, true⟩ 0).tr
    ∧ (handleRxPacket envRxOversize ⟨1, 0, true⟩ 0).out = .ok () := by
  decide

/-- C3 is the spec's intent but the code violates it: when the EIR read
fails with a bus error, the `?` operator aborts the IRQ closure before the
trailing `EIE BFS INTIE`, so the handler returns with INTIE still cleared —
its whole SPI trace is the initial EIE BFC followed by the failed EIR
read, and contains no EIE BFS. -/
theorem claim_C3_bug :
    (irqWorkHandler 1 2 envEirFail ⟨0, 0, true⟩ 0).out = .error .eio
    ∧ (irqWorkHandler 1 2 envEirFail ⟨0, 0, true⟩ 0).tr =
        [.spi (.write [0xbb, eie.INTIE]), .spi (.writeThenRead [0x1c] 1)]
    ∧ Event.spi (.write [0x9b, eie.INTIE])
        ∉ (irqWorkHandler 1 2 envEirFail ⟨0, 0, true⟩ 0).tr := by
  decide

/-- C4 fails on the code: the TX worker's EWRPT and ETXND updates and the
RX path's ERXRDPT update call `write` with `Command::Rcr`, so the first
SPI byte carries the RCR opcode (000) instead of WCR (010): for a 3-byte
frame the emitted bytes start with 0x02 (= RCR | EWRPTL), not
0x42 (= WCR | EWRPTL), and the ERXRDPT update of a received packet ends
with first bytes 0x0c/0x0d instead of 0x4c/0x4d. -/
theorem claim_C4_bug :
    (txWorkHandler [1, 2, 3] envOk ⟨0, 0, true⟩ 0).tr =
      [.spi (.write [0x02, 0x00]), .spi (.write [0x03, 0x1a]),
       .spi (.write [0x06, 0x03]), .spi (.write [0x07, 0x1a]),
       .spi (.write [0x7a, 0x00]), .spi (.write [0x7a, 1, 2, 3]),
       .spi (.write [0x9f, econ1.TXRTS])]
    ∧ Command.rcr.code ||| EWRPTL.addr = 0x02
    ∧ Command.wcr.code ||| EWRPTL.addr = 0x42
    ∧ (0x02 : Nat) ≠ 0x42
    ∧ (handleRxPacket envRxOversize ⟨1, 0, true⟩ 0).tr.drop 16 =
        [.spi (.write [0x0c, 0xff]), .spi (.write [0x0d, 0x00])]
    ∧ Command.wcr.code ||| ERXRDPTL.addr = 0x4c := by
  decide

/-- C10: a bank switch mutates the cached bank only when both ECON1 writes
succeed: if the BFC fails, or the BFC succeeds and the BFS fails, the
error is returned with the cache unchanged; on success the cache holds the
new bank.  The last conjunct states the cache-atomicity for any outcome. -/
theorem claim_C10 (env : Env) (s : DrvSt) (i : Nat) (bk : Bank)
    (hne : s.bank ≠ bk.toNat) :
    (env i = none →
      switchBank (some bk) env s i =
        ⟨.error .eio, s, i + 1, [.spi (.write [0xbf, 3])]⟩)
    ∧ (∀ bs, env i = some bs → env (i + 1) = none →
      switchBank (some bk) env s i =
        ⟨.error .eio, s, i + 2,
          [.spi (.write [0xbf, 3]), .spi (.write [0x9f, bk.toNat])]⟩)
    ∧ (∀ bs bs2, env i = some bs → env (i + 1) = some bs2 →
      switchBank (some bk) env s i =
        ⟨.ok (), { s with bank := bk.toNat }, i + 2,
          [.spi (.write [0xbf, 3]), .spi (.write [0x9f, bk.toNat])]⟩)
    ∧ (∀ e, (switchBank (some bk) env s i).out = .error e →
        (switchBank (some bk) env s i).st.bank = s.bank) := by
  have h1 : (econ1.BSEL1 ||| econ1.BSEL0 : Nat) = 3 := by decide
  have h2 : (Command.bfc.code ||| ECON1.addr : Nat) = 0xbf := by decide
  have h3 : (Command.bfs.code ||| ECON1.addr : Nat) = 0x9f := by decide
  refine ⟨?_, ?_, ?_, ?_⟩ <;>
    · simp only [switchBank, getSt, setCachedBank, CReg8.writeOp, spiWrite,
        bind, instMonadM, M.bind, M.pure, hne, if_true, ne_eq,
        not_false_eq_true, ite_true, h1, h2, h3]
      cases henv1 : env i <;> cases henv2 : env (i + 1) <;>
        simp [henv1, henv2]

theorem claim_C10_witness :
    switchBank (some .bank1) (fun j => if j = 0 then some [] else none)
        ⟨0, 0, true⟩ 0 =
      ⟨.error .eio, ⟨0, 0, true⟩, 2,
        [.spi (.write [0xbf, 3]), .spi (.write [0x9f, 1])]⟩ := by
  have h := claim_C10 (fun j => if j = 0 then some [] else none)
    ⟨0, 0, true⟩ 0 .bank1 (by decide)
  simpa using h.2.1 [] rfl rfl

theorem shiftLeft_lor_add (a b n : Nat) (hb : b < 2 ^ n) :
    (a <<< n) ||| b = a <<< n + b := by
  apply Nat.eq_of_testBit_eq
  intro i
  rw [Nat.testBit_lor, Nat.testBit_shiftLeft, Nat.shiftLeft_eq]
  rcases Nat.lt_or_ge i n with hi | hi
  · have hni : ¬ n ≤ i := by omega
    simp only [hni, decide_False, Bool.false_and, Bool.false_or]
    obtain ⟨k, hk⟩ : ∃ k, n = k + 1 + i := ⟨n - i - 1, by omega⟩
    subst hk
    rw [Nat.testBit_to_div_mod, Nat.testBit_to_div_mod]
    have hdiv : (a * 2 ^ (k + 1 + i) + b) / 2 ^ i % 2 = b / 2 ^ i % 2 := by
      rw [pow_add, ← mul_assoc, mul_comm (a * 2 ^ (k + 1)) (2 ^ i),
        Nat.mul_add_div (Nat.two_pow_pos i), pow_succ, ← mul_assoc]
      omega
    rw [hdiv]
  · have hbz : b.testBit i = false :=
      Nat.testBit_lt_two_pow
        (lt_of_lt_of_le hb (Nat.pow_le_pow_right (by norm_num) hi))
    simp only [hi, decide_True, Bool.true_and, hbz, Bool.or_false]
    obtain ⟨k, hk⟩ : ∃ k, i = n + k := ⟨i - n, by omega⟩
    subst hk
    rw [Nat.testBit_to_div_mod, Nat.testBit_to_div_mod]
    have hdiv : (a * 2 ^ n + b) / 2 ^ (n + k) % 2 = a / 2 ^ k % 2 := by
      rw [pow_add, ← Nat.div_div_eq_div_mul, mul_comm a (2 ^ n),
        Nat.mul_add_div (Nat.two_pow_pos n), Nat.div_eq_of_lt hb,
        Nat.add_zero]
    rw [Nat.add_sub_cancel_left, hdiv]

/-- The chip-side effect of a WCR transaction on the 8-bit register store:
a write whose first byte has opcode 010 in the top three bits stores the
data byte at the 5-bit address. -/
def applyWcr (st : Nat → Nat) (ev : Event) : Nat → Nat :=
  match ev with
  | .spi (.write [c, d]) =>
    if c >>> 5 = 2 then (fun x => if x = c &&& 31 then d else st x) else st
  | _ => st

def applyWcrTrace (st : Nat → Nat) (tr : List Event) : Nat → Nat :=
  tr.foldl applyWcr st

/-- The bytes an RCR read of register `rr` clocks in from a chip whose
register store is `st` (MAC/MII registers send a dummy byte first). -/
def respBytes (rr : CReg8) (st : Nat → Nat) : List Nat :=
  if rr.eth then [st rr.addr] else [0, st rr.addr]

/-- Read-back oracle: transaction `i` answers for the low register,
any later one for the high register. -/
def readbackEnv (st : Nat → Nat) (r : CReg16) (i : Nat) : Env :=
  fun j => if j = i then some (respBytes r.low st) else some (respBytes r.high st)

theorem wcrByteFacts :
    ∀ a, a < 32 → ((0x40 ||| a) >>> 5 = 2 ∧ (0x40 ||| a) &&& 31 = a) := by
  decide

/-- C9: a 16-bit register write splits the value into its low byte
(written first, WCR-encoded at the low address) and high byte (written
second at the high address); applying those two WCR transactions to a
register store and reading the pair back with the `(high << 8) | low`
composition yields the value again, for any 16-bit value and any pair of
distinct 5-bit addresses. -/
theorem claim_C9 (r : CReg16) (v : Nat) (f : Nat → List Nat) (s : DrvSt) (i : Nat)
    (st : Nat → Nat) (hv : v < 65536)
    (hla : r.low.addr < 32) (hha : r.high.addr < 32)
    (hne : r.low.addr ≠ r.high.addr) :
    CReg16.writeOp r .wcr v (okEnv f) s i =
      ⟨.ok (), s, i + 2,
        [.spi (.write [0x40 ||| r.low.addr, v % 256]),
         .spi (.write [0x40 ||| r.high.addr, (v >>> 8) % 256])]⟩
    ∧ applyWcrTrace st (CReg16.writeOp r .wcr v (okEnv f) s i).tr r.low.addr
        = v % 256
    ∧ applyWcrTrace st (CReg16.writeOp r .wcr v (okEnv f) s i).tr r.high.addr
        = (v >>> 8) % 256
    ∧ (CReg16.readOp r .rcr
        (readbackEnv
          (applyWcrTrace st (CReg16.writeOp r .wcr v (okEnv f) s i).tr) r i)
        s i).out = .ok v := by
  have hw : CReg16.writeOp r .wcr v (okEnv f) s i =
      ⟨.ok (), s, i + 2,
        [.spi (.write [0x40 ||| r.low.addr, v % 256]),
         .spi (.write [0x40 ||| r.high.addr, (v >>> 8) % 256])]⟩ := rfl
  have hst : applyWcrTrace st (CReg16.writeOp r .wcr v (okEnv f) s i).tr =
      fun x => if x = r.high.addr then (v >>> 8) % 256
        else if x = r.low.addr then v % 256 else st x := by
    funext x
    rw [hw]
    simp [applyWcrTrace, applyWcr,
      (wcrByteFacts _ hla).1, (wcrByteFacts _ hla).2,
      (wcrByteFacts _ hha).1, (wcrByteFacts _ hha).2]
  refine ⟨hw, ?_, ?_, ?_⟩
  · rw [hst]
    simp [hne]
  · rw [hst]
    simp
  · rw [hst]
    have hcompose2 : ((v >>> 8 % 256) <<< 8) ||| (v % 256) = v := by
      have h1 : v >>> 8 = v / 256 := by
        rw [Nat.shiftRight_eq_div_pow]
      have h2 : v / 256 % 256 = v / 256 := Nat.mod_eq_of_lt (by omega)
      rw [h1, h2, shiftLeft_lor_add _ _ 8 (by omega), Nat.shiftLeft_eq]
      have h3 : (2 : Nat) ^ 8 = 256 := by norm_num
      rw [h3]
      omega
    cases hle : r.low.eth <;> cases hhe : r.high.eth <;>
      · simp only [CReg16.readOp, CReg8.readOp, spiWtr, readbackEnv, respBytes,
          bind, instMonadM, M.bind, M.pure, pure, hle, hhe,
          if_pos rfl, if_true, if_false, Bool.false_eq_true, ite_true, ite_false,
          Nat.succ_ne_self]
        simp [Nat.add_comm i 1, hne, Nat.mod_mod_of_dvd, hcompose2]

theorem claim_C9_witness :
    (CReg16.readOp ERDPT .rcr
      (readbackEnv (applyWcrTrace (fun _ => 0)
        (CReg16.writeOp ERDPT .wcr 0x1234 (okEnv fun _ => []) ⟨0, 0, true⟩ 0).tr)
        ERDPT 0) ⟨0, 0, true⟩ 0).out = .ok 0x1234 :=
  (claim_C9 ERDPT 0x1234 (fun _ => []) ⟨0, 0, true⟩ 0 (fun _ => 0)
    (by decide) (by decide) (by decide) (by decide)).2.2.2

/-- Recognizes the unique SPI request shape of an EREVID read
(RCR | 0x12, i.e. tx = [0x12]). -/
def isErevidRead (ev : Event) : Bool :=
  match ev with
  | .spi (.writeThenRead tx _) => tx == [0x12]
  | _ => false

/-- A computation that never issues an EREVID read, whatever the oracle,
state and transaction index. -/
def NoErevid (x : M α) : Prop :=
  ∀ env s i ev, ev ∈ (x env s i).tr → isErevidRead ev = false

theorem noErevid_bind {x : M α} {g : α → M β}
    (hx : NoErevid x) (hg : ∀ a, NoErevid (g a)) : NoErevid (x >>= g) := by
  intro env s i ev hev
  change ev ∈ (M.bind x g env s i).tr at hev
  simp only [M.bind] at hev
  cases hout : (x env s i).out with
  | error e =>
    rw [hout] at hev
    exact hx env s i ev hev
  | ok a =>
    rw [hout] at hev
    have hev2 : ev ∈ (x env s i).tr
        ++ (g a env (x env s i).st (x env s i).idx).tr := hev
    rcases List.mem_append.mp hev2 with h | h
    · exact hx env s i ev h
    · exact hg a env _ _ ev h

theorem noErevid_pure (a : α) : NoErevid (pure a : M α) := by
  intro env s i ev hev
  simp [pure, M.pure] at hev

theorem noErevid_throwErr (e : Err) : NoErevid (throwErr e : M α) := by
  intro env s i ev hev
  simp [throwErr] at hev

theorem noErevid_getSt : NoErevid getSt := by
  intro env s i ev hev
  simp [getSt] at hev

theorem noErevid_setCachedBank (b : Nat) : NoErevid (setCachedBank b) := by
  intro env s i ev hev
  simp [setCachedBank] at hev

theorem noErevid_setNextPacketPtr (p : Nat) : NoErevid (setNextPacketPtr p) := by
  intro env s i ev hev
  simp [setNextPacketPtr] at hev

theorem noErevid_setHwEnabled (b : Bool) : NoErevid (setHwEnabled b) := by
  intro env s i ev hev
  simp [setHwEnabled] at hev

theorem noErevid_spiWrite (tx : List Nat) : NoErevid (spiWrite tx) := by
  intro env s i ev hev
  unfold spiWrite at hev
  cases henv : env i <;> rw [henv] at hev <;> simp at hev <;>
    subst hev <;> rfl

theorem noErevid_spiWtr (tx : List Nat) (n : Nat)
    (h : (tx == [(0x12 : Nat)]) = false) : NoErevid (spiWtr tx n) := by
  intro env s i ev hev
  unfold spiWtr at hev
  cases henv : env i <;> rw [henv] at hev <;> simp at hev <;>
    subst hev <;> simpa [isErevidRead] using h

theorem noErevid_ite (c : Prop) [Decidable c] {x y : M α}
    (hx : NoErevid x) (hy : NoErevid y) : NoErevid (if c then x else y) := by
  by_cases h : c
  · simpa [h] using hx
  · simpa [h] using hy

theorem noErevid_writeOp8 (r : CReg8) (c : Command) (d : Nat) :
    NoErevid (r.writeOp c d) :=
  noErevid_spiWrite _

theorem noErevid_readOp8 (r : CReg8) (c : Command)
    (h : c.code ||| r.addr ≠ 0x12) : NoErevid (r.readOp c) := by
  unfold CReg8.readOp
  exact noErevid_bind (noErevid_spiWtr _ _ (by simpa using h))
    (fun a => noErevid_pure _)

theorem noErevid_switchBank (b : Option Bank) : NoErevid (switchBank b) := by
  cases b with
  | none => exact noErevid_pure _
  | some bk =>
    unfold switchBank
    exact noErevid_bind noErevid_getSt (fun s =>
      noErevid_ite _
        (noErevid_bind (noErevid_writeOp8 _ _ _) (fun _ =>
          noErevid_bind (noErevid_writeOp8 _ _ _) (fun _ =>
            noErevid_setCachedBank _)))
        (noErevid_pure _))

theorem noErevid_writeReg8 (r : CReg8) (c : Command) (d : Nat) :
    NoErevid (writeReg8 r c d) := by
  unfold writeReg8
  exact noErevid_bind (noErevid_switchBank _) (fun _ => noErevid_writeOp8 _ _ _)

theorem noErevid_writeReg16 (r : CReg16) (c : Command) (d : Nat) :
    NoErevid (writeReg16 r c d) := by
  unfold writeReg16 CReg16.writeOp
  exact noErevid_bind (noErevid_switchBank _) (fun _ =>
    noErevid_bind (noErevid_writeOp8 _ _ _) (fun _ => noErevid_writeOp8 _ _ _))

theorem noErevid_readReg8 (r : CReg8) (c : Command)
    (h : c.code ||| r.addr ≠ 0x12) : NoErevid (readReg8 r c) := by
  unfold readReg8
  exact noErevid_bind (noErevid_switchBank _) (fun _ => noErevid_readOp8 _ _ h)

theorem noErevid_wait (r : CReg8) (mask val : Nat)
    (h : Command.rcr.code ||| r.addr ≠ 0x12) :
    ∀ fuel, NoErevid (waitForReady8 r mask val fuel)
  | 0 => noErevid_throwErr _
  | fuel + 1 => by
    unfold waitForReady8
    exact noErevid_bind (noErevid_readReg8 _ _ h) (fun v =>
      noErevid_ite _ (noErevid_wait r mask val h fuel) (noErevid_pure _))

theorem noErevid_writePhy (reg : PhyReg) (d fuel : Nat) :
    NoErevid (writePhy reg d fuel) := by
  unfold writePhy
  exact noErevid_bind (noErevid_writeReg8 _ _ _) (fun _ =>
    noErevid_bind (noErevid_writeReg16 _ _ _) (fun _ =>
      noErevid_wait _ _ _ (by decide) fuel))

theorem noErevid_initRxfifo (range : BufferRange) :
    NoErevid (initRxfifo range) := by
  unfold initRxfifo
  exact noErevid_ite _ (noErevid_throwErr _)
    (noErevid_bind (noErevid_setNextPacketPtr _) (fun _ =>
      noErevid_bind (noErevid_writeReg16 _ _ _) (fun _ =>
        noErevid_bind (noErevid_writeReg16 _ _ _) (fun _ =>
          noErevid_writeReg16 _ _ _))))

theorem noErevid_initTxfifo (range : BufferRange) :
    NoErevid (initTxfifo range) := by
  unfold initTxfifo
  exact noErevid_ite _ (noErevid_throwErr _)
    (noErevid_bind (noErevid_writeReg16 _ _ _) (fun _ =>
      noErevid_writeReg16 _ _ _))

theorem noErevid_initHardwareRest2 (fuel : Nat) :
    NoErevid (initHardwareRest2 fuel) := by
  unfold initHardwareRest2
  exact noErevid_bind (noErevid_initRxfifo _) (fun _ =>
    noErevid_bind (noErevid_initTxfifo _) (fun _ =>
      noErevid_bind (noErevid_writeReg8 _ _ _) (fun _ =>
        noErevid_bind (noErevid_writeReg8 _ _ _) (fun _ =>
          noErevid_bind (noErevid_writeReg8 _ _ _) (fun _ =>
            noErevid_bind (noErevid_writeReg16 _ _ _) (fun _ =>
              noErevid_bind (noErevid_writeReg8 _ _ _) (fun _ =>
                noErevid_bind (noErevid_writeReg16 _ _ _) (fun _ =>
                  noErevid_bind (noErevid_writePhy _ _ _) (fun _ =>
                    noErevid_bind (noErevid_writePhy _ _ _) (fun _ =>
                      noErevid_writePhy _ _ _))))))))))

theorem noErevid_initHardwareRest (fuel : Nat) :
    NoErevid (initHardwareRest fuel) := by
  unfold initHardwareRest
  exact noErevid_bind (noErevid_writeReg8 _ _ _) (fun _ =>
    noErevid_initHardwareRest2 fuel)

set_option maxHeartbeats 1000000 in
/-- C7: under a fault-free SPI transport, `init_hardware` reads EREVID
exactly once (the count of EREVID-read requests in its whole trace is 1);
when the byte read at transaction i+4 is 0 or 0xFF the function returns
ENODEV and its trace ends at that read (exactly the five transactions
SRC, ECON1 write, the two bank-select writes and the EREVID read); and
only when the byte is neither 0 nor 0xFF does the trace continue, its
next transaction being the ECON2 auto-increment configuration write. -/
theorem claim_C7 (f : Nat → List Nat) (s : DrvSt) (i : Nat) (fuel : Nat) :
    (initHardware fuel (okEnv f) s i).tr.countP isErevidRead = 1
    ∧ ((f (i + 4)).getD 0 0 % 256 = 0 ∨ (f (i + 4)).getD 0 0 % 256 = 0xff →
        initHardware fuel (okEnv f) s i =
          ⟨.error .enodev, ⟨3, s.nextPacketPtr, false⟩, i + 5,
            [.spi (.write [0xff]), .spi (.write [0x5f, 0]),
             .spi (.write [0xbf, 3]), .spi (.write [0x9f, 3]),
             .spi (.writeThenRead [0x12] 1)]⟩)
    ∧ (¬ ((f (i + 4)).getD 0 0 % 256 = 0 ∨ (f (i + 4)).getD 0 0 % 256 = 0xff) →
        ∃ rest, (initHardware fuel (okEnv f) s i).tr =
          [.spi (.write [0xff]), .spi (.write [0x5f, 0]),
           .spi (.write [0xbf, 3]), .spi (.write [0x9f, 3]),
           .spi (.writeThenRead [0x12] 1)]
          ++ (.spi (.write [0x5e, econ2.AUTOINC]) :: rest)) := by
  have key : initHardware fuel (okEnv f) s i =
      (let r2 := (if (f (i + 4)).getD 0 0 % 256 = 0
            ∨ (f (i + 4)).getD 0 0 % 256 = 0xff then throwErr .enodev
          else initHardwareRest fuel) (okEnv f) ⟨3, s.nextPacketPtr, false⟩ (i + 5)
       ⟨r2.out, r2.st, r2.idx,
        [.spi (.write [0xff]), .spi (.write [0x5f, 0]),
         .spi (.write [0xbf, 3]), .spi (.write [0x9f, 3]),
         .spi (.writeThenRead [0x12] 1)] ++ r2.tr⟩) := rfl
  by_cases hv : (f (i + 4)).getD 0 0 % 256 = 0 ∨ (f (i + 4)).getD 0 0 % 256 = 0xff
  · rw [key, if_pos hv]
    dsimp only [throwErr]
    exact ⟨by decide, fun _ => rfl, fun h => absurd hv h⟩
  · rw [key, if_neg hv]
    dsimp only
    have hres : initHardwareRest fuel (okEnv f) ⟨3, s.nextPacketPtr, false⟩ (i + 5)
        = (let rr := initHardwareRest2 fuel (okEnv f)
              ⟨3, s.nextPacketPtr, false⟩ (i + 6)
           ⟨rr.out, rr.st, rr.idx,
            .spi (.write [0x5e, econ2.AUTOINC]) :: rr.tr⟩) := rfl
    refine ⟨?_, fun h => absurd h hv,
      fun _ => ⟨(initHardwareRest2 fuel (okEnv f)
        ⟨3, s.nextPacketPtr, false⟩ (i + 6)).tr, ?_⟩⟩
    · rw [List.countP_append]
      have hz : (initHardwareRest fuel (okEnv f) ⟨3, s.nextPacketPtr, false⟩
          (i + 5)).tr.countP isErevidRead = 0 := by
        rw [List.countP_eq_zero]
        intro a ha
        simpa using noErevid_initHardwareRest fuel (okEnv f) _ _ a ha
      rw [hz]
      decide
    · rw [hres]

theorem claim_C7_witness :
    initHardware 3 (okEnv fun _ => []) ⟨0, 0, false⟩ 0 =
      ⟨.error .enodev, ⟨3, 0, false⟩, 5,
        [.spi (.write [0xff]), .spi (.write [0x5f, 0]),
         .spi (.write [0xbf, 3]), .spi (.write [0x9f, 3]),
         .spi (.writeThenRead [0x12] 1)]⟩ :=
  (claim_C7 (fun _ => []) ⟨0, 0, false⟩ 0 3).2.1 (Or.inl rfl)

/-- Effect of one driver event on the chip's 2-bit bank-select state:
WCR to ECON1 (first byte 0x5f) loads BSEL directly, BFS (0x9f) sets bits,
BFC (0xbf) clears bits; reads and other registers leave it alone. -/
def chipBankStep (b : Nat) (ev : Event) : Nat :=
  match ev with
  | .spi (.write (c :: d :: _)) =>
    if c = 0x5f then d &&& 3
    else if c = 0x9f then b ||| (d &&& 3)
    else if c = 0xbf then b &&& (3 ^^^ (d &&& 3))
    else b
  | _ => b

/-- The chip's active bank after a trace of driver events. -/
def chipBank (b : Nat) (tr : List Event) : Nat := tr.foldl chipBankStep b

theorem chipBank_append (b : Nat) (t1 t2 : List Event) :
    chipBank b (t1 ++ t2) = chipBank (chipBank b t1) t2 :=
  List.foldl_append _ _ _ _

/-- A write payload that cannot disturb the BSEL bits of ECON1 outside of
`switch_bank` itself. -/
def byteBselSafe (c d : Nat) : Bool :=
  if c = 0x5f then false
  else if c = 0x9f ∨ c = 0xbf then d &&& 3 == 0
  else true

/-- One register access through the driver facade. -/
inductive RegAccess where
  | r8 (r : CReg8) (c : Command)
  | w8 (r : CReg8) (c : Command) (d : Nat)
  | r16 (r : CReg16) (c : Command)
  | w16 (r : CReg16) (c : Command) (d : Nat)

def RegAccess.bselSafe : RegAccess → Bool
  | .w8 r c d => byteBselSafe (c.code ||| r.addr) d
  | .w16 r c d => byteBselSafe (c.code ||| r.low.addr) (d % 256)
      && byteBselSafe (c.code ||| r.high.addr) ((d >>> 8) % 256)
  | _ => true

def runAccess : RegAccess → M Unit
  | .r8 r c => do
    let _v ← readReg8 r c
    pure ()
  | .w8 r c d => writeReg8 r c d
  | .r16 r c => do
    let _v ← readReg16 r c
    pure ()
  | .w16 r c d => writeReg16 r c d

def runAccesses : List RegAccess → M Unit
  | [] => pure ()
  | a :: rest => do
    runAccess a
    runAccesses rest

/-- The bank invariant: when the computation succeeds, replaying its trace
against the chip moves the active bank to exactly the cached bank. -/
def BankOk (x : M α) : Prop :=
  ∀ env s i, s.bank < 4 → ∀ a, (x env s i).out = .ok a →
    chipBank s.bank (x env s i).tr = (x env s i).st.bank
    ∧ (x env s i).st.bank < 4

theorem bankOk_bind {x : M α} {g : α → M β}
    (hx : BankOk x) (hg : ∀ a, BankOk (g a)) : BankOk (x >>= g) := by
  intro env s i hlt b hok
  change (M.bind x g env s i).out = .ok b at hok
  show chipBank s.bank (M.bind x g env s i).tr = (M.bind x g env s i).st.bank
    ∧ (M.bind x g env s i).st.bank < 4
  cases hout : (x env s i).out with
  | error e =>
    simp only [M.bind, hout] at hok
    exact absurd hok (by simp)
  | ok a =>
    simp only [M.bind, hout] at hok ⊢
    have h1 := hx env s i hlt a hout
    have h2 := hg a env (x env s i).st (x env s i).idx h1.2 b hok
    rw [chipBank_append, h1.1]
    exact h2

theorem bankOk_pure (a : α) : BankOk (pure a : M α) := by
  intro env s i hlt _b _hok
  exact ⟨rfl, hlt⟩

theorem bankOk_spiWtr (tx : List Nat) (n : Nat) : BankOk (spiWtr tx n) := by
  intro env s i hlt b hok
  unfold spiWtr at hok ⊢
  cases henv : env i
  · rw [henv] at hok
    simp at hok
  · exact ⟨rfl, hlt⟩

theorem chipBankStep_safe (c d b : Nat) (hb : b < 4)
    (h : byteBselSafe c d = true) :
    chipBankStep b (.spi (.write [c, d])) = b := by
  unfold byteBselSafe at h
  unfold chipBankStep
  by_cases h1 : c = 0x5f
  · simp [h1] at h
  · by_cases h2 : c = 0x9f ∨ c = 0xbf
    · simp only [h1, h2, if_false, if_true, beq_iff_eq] at h
      have hand : b &&& 3 = b := by
        have : b &&& 3 = b % 4 := Nat.and_pow_two_sub_one_eq_mod b 2
        rw [this, Nat.mod_eq_of_lt hb]
      rcases h2 with h2 | h2 <;> simp [h1, h2, h, hand]
    · push_neg at h2
      simp [h1, h2.1, h2.2]

theorem bankOk_spiWrite (tx : List Nat)
    (h : ∀ b, b < 4 → chipBankStep b (.spi (.write tx)) = b) :
    BankOk (spiWrite tx) := by
  intro env s i hlt b hok
  unfold spiWrite at hok ⊢
  cases henv : env i
  · rw [henv] at hok
    simp at hok
  · exact ⟨h s.bank hlt, hlt⟩

theorem bankOk_writeOp8 (r : CReg8) (c : Command) (d : Nat)
    (h : byteBselSafe (c.code ||| r.addr) d = true) :
    BankOk (r.writeOp c d) :=
  bankOk_spiWrite _ (fun _b hb => chipBankStep_safe _ _ _ hb h)

theorem bankOk_readOp8 (r : CReg8) (c : Command) : BankOk (r.readOp c) := by
  unfold CReg8.readOp
  exact bankOk_bind (bankOk_spiWtr _ _) (fun a => bankOk_pure _)

theorem switchBank_eq_of_same (bk : Bank) (env : Env) (s : DrvSt) (i : Nat)
    (heq : s.bank = Bank.toNat bk) :
    switchBank (some bk) env s i = ⟨.ok (), s, i, []⟩ := by
  simp only [switchBank, getSt, bind, instMonadM, M.bind, M.pure, pure]
  simp [heq, M.pure]

theorem switchBank_run (bk : Bank) (env : Env) (s : DrvSt) (i : Nat)
    (hne : s.bank ≠ Bank.toNat bk) :
    switchBank (some bk) env s i =
      match env i with
      | none => ⟨.error .eio, s, i + 1, [.spi (.write [0xbf, 3])]⟩
      | some _ =>
        match env (i + 1) with
        | none => ⟨.error .eio, s, i + 2,
            [.spi (.write [0xbf, 3]), .spi (.write [0x9f, Bank.toNat bk])]⟩
        | some _ => ⟨.ok (), { s with bank := Bank.toNat bk }, i + 2,
            [.spi (.write [0xbf, 3]), .spi (.write [0x9f, Bank.toNat bk])]⟩ := by
  have h1 : (econ1.BSEL1 ||| econ1.BSEL0 : Nat) = 3 := by decide
  have h2 : (Command.bfc.code ||| ECON1.addr : Nat) = 0xbf := by decide
  have h3 : (Command.bfs.code ||| ECON1.addr : Nat) = 0x9f := by decide
  simp only [switchBank, getSt, setCachedBank, CReg8.writeOp, spiWrite,
    bind, instMonadM, M.bind, M.pure, hne, ite_true, if_true, ne_eq,
    not_false_eq_true, h1, h2, h3]
  cases env i <;> cases env (i + 1) <;> simp

theorem bankOk_switchBank (bopt : Option Bank) : BankOk (switchBank bopt) := by
  intro env s i hlt a hok
  cases bopt with
  | none => exact ⟨rfl, hlt⟩
  | some bk =>
    by_cases heq : s.bank = Bank.toNat bk
    · rw [switchBank_eq_of_same bk env s i heq]
      exact ⟨rfl, hlt⟩
    · rw [switchBank_run bk env s i heq] at hok ⊢
      cases henv1 : env i
      · rw [henv1] at hok
        simp at hok
      · cases henv2 : env (i + 1)
        · rw [henv1, henv2] at hok
          simp at hok
        · dsimp only
          refine ⟨?_, by cases bk <;> decide⟩
          show chipBankStep (chipBankStep s.bank (.spi (.write [0xbf, 3])))
            (.spi (.write [0x9f, Bank.toNat bk])) = Bank.toNat bk
          have hstep : chipBankStep s.bank (.spi (.write [0xbf, 3])) = 0 := by
            unfold chipBankStep
            simp
          rw [hstep]
          cases bk <;> decide

theorem bankOk_readReg8 (r : CReg8) (c : Command) : BankOk (readReg8 r c) := by
  unfold readReg8
  exact bankOk_bind (bankOk_switchBank _) (fun _ => bankOk_readOp8 _ _)

theorem bankOk_readReg16 (r : CReg16) (c : Command) : BankOk (readReg16 r c) := by
  unfold readReg16 CReg16.readOp
  exact bankOk_bind (bankOk_switchBank _) (fun _ =>
    bankOk_bind (bankOk_readOp8 _ _) (fun _ =>
      bankOk_bind (bankOk_readOp8 _ _) (fun _ => bankOk_pure _)))

theorem bankOk_writeReg8 (r : CReg8) (c : Command) (d : Nat)
    (h : byteBselSafe (c.code ||| r.addr) d = true) :
    BankOk (writeReg8 r c d) := by
  unfold writeReg8
  exact bankOk_bind (bankOk_switchBank _) (fun _ => bankOk_writeOp8 _ _ _ h)

theorem bankOk_writeReg16 (r : CReg16) (c : Command) (d : Nat)
    (hlo : byteBselSafe (c.code ||| r.low.addr) (d % 256) = true)
    (hhi : byteBselSafe (c.code ||| r.high.addr) ((d >>> 8) % 256) = true) :
    BankOk (writeReg16 r c d) := by
  unfold writeReg16 CReg16.writeOp
  exact bankOk_bind (bankOk_switchBank _) (fun _ =>
    bankOk_bind (bankOk_writeOp8 _ _ _ hlo) (fun _ => bankOk_writeOp8 _ _ _ hhi))

theorem bankOk_runAccess (a : RegAccess) (h : a.bselSafe = true) :
    BankOk (runAccess a) := by
  cases a with
  | r8 r c =>
    show BankOk (readReg8 r c >>= fun _v => pure ())
    exact bankOk_bind (bankOk_readReg8 _ _) (fun _ => bankOk_pure _)
  | w8 r c d =>
    exact bankOk_writeReg8 r c d h
  | r16 r c =>
    show BankOk (readReg16 r c >>= fun _v => pure ())
    exact bankOk_bind (bankOk_readReg16 _ _) (fun _ => bankOk_pure _)
  | w16 r c d =>
    rw [RegAccess.bselSafe, Bool.and_eq_true] at h
    exact bankOk_writeReg16 r c d h.1 h.2

theorem bankOk_runAccesses :
    ∀ (l : List RegAccess), (∀ a ∈ l, a.bselSafe = true) →
      BankOk (runAccesses l)
  | [], _ => bankOk_pure ()
  | a :: rest, h => by
    show BankOk (runAccess a >>= fun _ => runAccesses rest)
    exact bankOk_bind (bankOk_runAccess a (h a (List.mem_cons_self a rest)))
      (fun _ => bankOk_runAccesses rest
        (fun x hx => h x (List.mem_cons_of_mem a hx)))

/-- C8: a register access for a common register or for the cached bank
performs no SPI I/O in the bank controller; otherwise `switch_bank` emits
exactly one BFC on ECON1 with mask BSEL1|BSEL0 followed by one BFS with
the 2-bit bank value and updates the cache; and for any sequence of
successful facade accesses whose payloads do not themselves touch the
BSEL bits, replaying the emitted trace against the chip leaves its active
bank equal to the cached bank. -/
theorem claim_C8 :
    (∀ (env : Env) (s : DrvSt) (i : Nat),
      switchBank none env s i = ⟨.ok (), s, i, []⟩)
    ∧ (∀ (bk : Bank) (env : Env) (s : DrvSt) (i : Nat),
        s.bank = Bank.toNat bk →
        switchBank (some bk) env s i = ⟨.ok (), s, i, []⟩)
    ∧ (∀ (bk : Bank) (f : Nat → List Nat) (s : DrvSt) (i : Nat),
        s.bank ≠ Bank.toNat bk →
        switchBank (some bk) (okEnv f) s i =
          ⟨.ok (), { s with bank := Bank.toNat bk }, i + 2,
            [.spi (.write [0xbf, 3]), .spi (.write [0x9f, Bank.toNat bk])]⟩)
    ∧ (∀ (accs : List RegAccess) (env : Env) (s : DrvSt) (i : Nat),
        (∀ a ∈ accs, a.bselSafe = true) → s.bank < 4 →
        ∀ u, (runAccesses accs env s i).out = .ok u →
        chipBank s.bank (runAccesses accs env s i).tr
          = (runAccesses accs env s i).st.bank) := by
  refine ⟨fun env s i => rfl, ?_, ?_, ?_⟩
  · intro bk env s i heq
    exact switchBank_eq_of_same bk env s i heq
  · intro bk f s i hne
    rw [switchBank_run bk (okEnv f) s i hne]
    rfl
  · intro accs env s i h hlt u hok
    exact (bankOk_runAccesses accs h env s i hlt u hok).1

theorem claim_C8_witness :
    chipBank 0 (runAccesses [.r8 EREVID .rcr, .r8 MISTAT .rcr, .r16 ERDPT .rcr]
        envOk ⟨0, 0, true⟩ 0).tr
      = (runAccesses [.r8 EREVID .rcr, .r8 MISTAT .rcr, .r16 ERDPT .rcr]
        envOk ⟨0, 0, true⟩ 0).st.bank :=
  claim_C8.2.2.2 [.r8 EREVID .rcr, .r8 MISTAT .rcr, .r16 ERDPT .rcr]
    envOk ⟨0, 0, true⟩ 0 (by decide) (by decide) () (by decide)

end Enc28j60

namespace Enc28j60

theorem bind_run {α β : Type} (x : M α) (g : α → M β) (env : Env) (s : DrvSt)
    (i : Nat) (a : α) (s2 : DrvSt) (i2 : Nat) (tr : List Event)
    (hx : x env s i = ⟨.ok a, s2, i2, tr⟩) :
    (x >>= g) env s i =
      ⟨(g a env s2 i2).out, (g a env s2 i2).st, (g a env s2 i2).idx,
       tr ++ (g a env s2 i2).tr⟩ := by
  change M.bind x g env s i = _
  unfold M.bind
  rw [hx]

set_option maxHeartbeats 1000000 in
/-- C2 (corrected): for every SPI oracle response function `f`, starting
from cached bank 1, `handle_rx_packet` succeeds, advances
`next_packet_ptr` to the status vector's next-pointer, delivers the frame
(allocates a buffer of `byte_count` bytes and calls `netif_rx`) exactly
when the RSV has RxOk set and both CrcError and LengthCheckError clear
(no `byte_count > ETH_MAX_FRAME_LEN` test exists in the code), and in
either case ends by writing `erxrdpt_workaround(rsv.next_ptr)` to
ERXRDPT low-then-high. -/
theorem claim_C2 (f : Nat → List Nat) (np : Nat) (hw : Bool) (i : Nat) :
    (handleRxPacket (okEnv f) ⟨1, np, hw⟩ i).out = .ok ()
    ∧ (handleRxPacket (okEnv f) ⟨1, np, hw⟩ i).st.nextPacketPtr
        = (RxStatusVector.ofBytes (f (i + 4))).nextPtr
    ∧ ((Event.netifRx (RxStatusVector.ofBytes (f (i + 4))).byteCount
          ∈ (handleRxPacket (okEnv f) ⟨1, np, hw⟩ i).tr
        ∧ Event.allocSkb (RxStatusVector.ofBytes (f (i + 4))).byteCount
          ∈ (handleRxPacket (okEnv f) ⟨1, np, hw⟩ i).tr) ↔
        ((RxStatusVector.ofBytes (f (i + 4))).statusBit rsvStatus.RxOk = true
         ∧ (RxStatusVector.ofBytes (f (i + 4))).statusBit rsvStatus.CrcError = false
         ∧ (RxStatusVector.ofBytes (f (i + 4))).statusBit
              rsvStatus.LengthCheckError = false))
    ∧ ∃ preEvents, (handleRxPacket (okEnv f) ⟨1, np, hw⟩ i).tr =
        preEvents ++
        [.spi (.write [0x0c, erxrdptWorkaround
            (RxStatusVector.ofBytes (f (i + 4))).nextPtr RXFIFO_INIT % 256]),
         .spi (.write [0x0d, (erxrdptWorkaround
            (RxStatusVector.ofBytes (f (i + 4))).nextPtr RXFIFO_INIT >>> 8) % 256])] := by
  by_cases hcond :
      ¬ (RxStatusVector.ofBytes (f (i + 4))).statusBit rsvStatus.RxOk = true
      ∨ (RxStatusVector.ofBytes (f (i + 4))).statusBit rsvStatus.CrcError = true
      ∨ (RxStatusVector.ofBytes (f (i + 4))).statusBit rsvStatus.LengthCheckError = true
  · have hrun : handleRxPacket (okEnv f) ⟨1, np, hw⟩ i =
        ⟨.ok (), ⟨0, (RxStatusVector.ofBytes (f (i + 4))).nextPtr, hw⟩, i + 13,
         [.spi (.write [0xbf, 3]), .spi (.write [0x9f, 0]),
          .spi (.write [0x40, np % 256]), .spi (.write [0x41, (np >>> 8) % 256]),
          .spi (.writeThenRead [0x3a] 6),
          .spi (.writeThenRead [0x00] 1), .spi (.writeThenRead [0x01] 1),
          .spi (.writeThenRead [0x0c] 1), .spi (.writeThenRead [0x0d] 1),
          .spi (.writeThenRead [0x0e] 1), .spi (.writeThenRead [0x0f] 1),
          .spi (.write [0x0c, erxrdptWorkaround
            (RxStatusVector.ofBytes (f (i + 4))).nextPtr RXFIFO_INIT % 256]),
          .spi (.write [0x0d, (erxrdptWorkaround
            (RxStatusVector.ofBytes (f (i + 4))).nextPtr RXFIFO_INIT >>> 8) % 256])]⟩ := by
      simp only [handleRxPacket]
      rw [bind_run getSt _ (okEnv f) ⟨1, np, hw⟩ i ⟨1, np, hw⟩ ⟨1, np, hw⟩ i [] rfl]
      dsimp only
      rw [bind_run (readBuffer np rsvSize) _ (okEnv f) ⟨1, np, hw⟩ i (f (i + 4))
        ⟨0, np, hw⟩ (i + 5)
        [.spi (.write [0xbf, 3]), .spi (.write [0x9f, 0]),
         .spi (.write [0x40, np % 256]), .spi (.write [0x41, (np >>> 8) % 256]),
         .spi (.writeThenRead [0x3a] 6)] rfl]
      dsimp only
      rw [bind_run (readReg16 ERDPT Command.rcr) _ (okEnv f) ⟨0, np, hw⟩ (i + 5)
        ((((f (i + 6)).getD 0 0 % 256) <<< 8) ||| ((f (i + 5)).getD 0 0 % 256))
        ⟨0, np, hw⟩ (i + 7)
        [.spi (.writeThenRead [0x00] 1), .spi (.writeThenRead [0x01] 1)] rfl]
      dsimp only
      rw [bind_run (readReg16 ERXRDPT Command.rcr) _ (okEnv f) ⟨0, np, hw⟩ (i + 7)
        ((((f (i + 8)).getD 0 0 % 256) <<< 8) ||| ((f (i + 7)).getD 0 0 % 256))
        ⟨0, np, hw⟩ (i + 9)
        [.spi (.writeThenRead [0x0c] 1), .spi (.writeThenRead [0x0d] 1)] rfl]
      dsimp only
      rw [bind_run (readReg16 ERXWRPT Command.rcr) _ (okEnv f) ⟨0, np, hw⟩ (i + 9)
        ((((f (i + 10)).getD 0 0 % 256) <<< 8) ||| ((f (i + 9)).getD 0 0 % 256))
        ⟨0, np, hw⟩ (i + 11)
        [.spi (.writeThenRead [0x0e] 1), .spi (.writeThenRead [0x0f] 1)] rfl]
      dsimp only
      rw [if_pos hcond]
      rfl
    rw [hrun]
    refine ⟨rfl, rfl, ?_,
      ⟨[.spi (.write [0xbf, 3]), .spi (.write [0x9f, 0]),
        .spi (.write [0x40, np % 256]), .spi (.write [0x41, (np >>> 8) % 256]),
        .spi (.writeThenRead [0x3a] 6),
        .spi (.writeThenRead [0x00] 1), .spi (.writeThenRead [0x01] 1),
        .spi (.writeThenRead [0x0c] 1), .spi (.writeThenRead [0x0d] 1),
        .spi (.writeThenRead [0x0e] 1), .spi (.writeThenRead [0x0f] 1)], rfl⟩⟩
    apply iff_of_false
    · simp
    · rintro ⟨hA, hB, hC⟩
      rcases hcond with h | h | h
      · exact h hA
      · simp [hB] at h
      · simp [hC] at h
  · have hrun : handleRxPacket (okEnv f) ⟨1, np, hw⟩ i =
        ⟨.ok (), ⟨0, (RxStatusVector.ofBytes (f (i + 4))).nextPtr, hw⟩, i + 16,
         [.spi (.write [0xbf, 3]), .spi (.write [0x9f, 0]),
          .spi (.write [0x40, np % 256]), .spi (.write [0x41, (np >>> 8) % 256]),
          .spi (.writeThenRead [0x3a] 6),
          .spi (.writeThenRead [0x00] 1), .spi (.writeThenRead [0x01] 1),
          .spi (.writeThenRead [0x0c] 1), .spi (.writeThenRead [0x0d] 1),
          .spi (.writeThenRead [0x0e] 1), .spi (.writeThenRead [0x0f] 1),
          .allocSkb (RxStatusVector.ofBytes (f (i + 4))).byteCount,
          .spi (.write [0x40, nextRxStart np % 256]),
          .spi (.write [0x41, (nextRxStart np >>> 8) % 256]),
          .spi (.writeThenRead [0x3a]
            (RxStatusVector.ofBytes (f (i + 4))).byteCount),
          .netifRx (RxStatusVector.ofBytes (f (i + 4))).byteCount,
          .spi (.write [0x0c, erxrdptWorkaround
            (RxStatusVector.ofBytes (f (i + 4))).nextPtr RXFIFO_INIT % 256]),
          .spi (.write [0x0d, (erxrdptWorkaround
            (RxStatusVector.ofBytes (f (i + 4))).nextPtr RXFIFO_INIT >>> 8) % 256])]⟩ := by
      simp only [handleRxPacket]
      rw [bind_run getSt _ (okEnv f) ⟨1, np, hw⟩ i ⟨1, np, hw⟩ ⟨1, np, hw⟩ i [] rfl]
      dsimp only
      rw [bind_run (readBuffer np rsvSize) _ (okEnv f) ⟨1, np, hw⟩ i (f (i + 4))
        ⟨0, np, hw⟩ (i + 5)
        [.spi (.write [0xbf, 3]), .spi (.write [0x9f, 0]),
         .spi (.write [0x40, np % 256]), .spi (.write [0x41, (np >>> 8) % 256]),
         .spi (.writeThenRead [0x3a] 6)] rfl]
      dsimp only
      rw [bind_run (readReg16 ERDPT Command.rcr) _ (okEnv f) ⟨0, np, hw⟩ (i + 5)
        ((((f (i + 6)).getD 0 0 % 256) <<< 8) ||| ((f (i + 5)).getD 0 0 % 256))
        ⟨0, np, hw⟩ (i + 7)
        [.spi (.writeThenRead [0x00] 1), .spi (.writeThenRead [0x01] 1)] rfl]
      dsimp only
      rw [bind_run (readReg16 ERXRDPT Command.rcr) _ (okEnv f) ⟨0, np, hw⟩ (i + 7)
        ((((f (i + 8)).getD 0 0 % 256) <<< 8) ||| ((f (i + 7)).getD 0 0 % 256))
        ⟨0, np, hw⟩ (i + 9)
        [.spi (.writeThenRead [0x0c] 1), .spi (.writeThenRead [0x0d] 1)] rfl]
      dsimp only
      rw [bind_run (readReg16 ERXWRPT Command.rcr) _ (okEnv f) ⟨0, np, hw⟩ (i + 9)
        ((((f (i + 10)).getD 0 0 % 256) <<< 8) ||| ((f (i + 9)).getD 0 0 % 256))
        ⟨0, np, hw⟩ (i + 11)
        [.spi (.writeThenRead [0x0e] 1), .spi (.writeThenRead [0x0f] 1)] rfl]
      dsimp only
      rw [if_neg hcond]
      rfl
    rw [hrun]
    have hstat : (RxStatusVector.ofBytes (f (i + 4))).statusBit rsvStatus.RxOk = true
        ∧ (RxStatusVector.ofBytes (f (i + 4))).statusBit rsvStatus.CrcError = false
        ∧ (RxStatusVector.ofBytes (f (i + 4))).statusBit
            rsvStatus.LengthCheckError = false := by
      simp only [not_or, Bool.not_eq_true, Bool.not_eq_false] at hcond
      exact hcond
    refine ⟨rfl, rfl, iff_of_true ⟨by simp, by simp⟩ hstat,
      ⟨[.spi (.write [0xbf, 3]), .spi (.write [0x9f, 0]),
        .spi (.write [0x40, np % 256]), .spi (.write [0x41, (np >>> 8) % 256]),
        .spi (.writeThenRead [0x3a] 6),
        .spi (.writeThenRead [0x00] 1), .spi (.writeThenRead [0x01] 1),
        .spi (.writeThenRead [0x0c] 1), .spi (.writeThenRead [0x0d] 1),
        .spi (.writeThenRead [0x0e] 1), .spi (.writeThenRead [0x0f] 1),
        .allocSkb (RxStatusVector.ofBytes (f (i + 4))).byteCount,
        .spi (.write [0x40, nextRxStart np % 256]),
        .spi (.write [0x41, (nextRxStart np >>> 8) % 256]),
        .spi (.writeThenRead [0x3a]
          (RxStatusVector.ofBytes (f (i + 4))).byteCount),
        .netifRx (RxStatusVector.ofBytes (f (i + 4))).byteCount], rfl⟩⟩


/-- Non-vacuity check for C2: with the oversize-but-RxOk status vector
(byte_count 2000, RxOk set, no CRC/length error) the packet is delivered
to the network stack and the pointer advances to 0x0100. -/
theorem claim_C2_witness :
    (handleRxPacket (okEnv (fun j => if j = 4 then rsvOversize else []))
        ⟨1, 0, true⟩ 0).out = .ok ()
    ∧ (handleRxPacket (okEnv (fun j => if j = 4 then rsvOversize else []))
        ⟨1, 0, true⟩ 0).st.nextPacketPtr = 0x0100
    ∧ Event.netifRx 2000 ∈
        (handleRxPacket (okEnv (fun j => if j = 4 then rsvOversize else []))
          ⟨1, 0, true⟩ 0).tr := by
  have h := claim_C2 (fun j => if j = 4 then rsvOversize else []) 0 true 0
  refine ⟨h.1, ?_, ?_⟩
  · rw [h.2.1]
    decide
  · have hm := (h.2.2.1).mpr (by decide)
    have hbc : (RxStatusVector.ofBytes
        ((fun j => if j = 4 then rsvOversize else []) (0 + 4))).byteCount = 2000 := by
      decide
    exact hbc ▸ hm.1

end Enc28j60
